import Mathlib

/-!
Verification of the reservation-composition and adapter layer of the
Expedia-Website repository (C++), via a shallow embedding in Lean 4.

Conventions of the embedding:
* C++ `double` prices are modelled as `Rat`; C++ `int` counts are modelled as
  `Int` (the program never comes near overflow and signed overflow is not part
  of any claim).
* Records held through `std::unique_ptr` by the adapters are modelled by the
  record values themselves; the default constructors allocate
  default-initialised records (`int x { }` is 0, strings are empty), which the
  field defaults below mirror.
* `std::ostream` output is modelled as the list of values written to the
  stream, in order, each `<<` operand becoming one `Token`.
* Heap/ownership behaviour (clone independence, exclusive ownership) is
  modelled separately by an explicit store of nodes addressed by `Nat`
  (see `Node`, `Store` below).
-/

/-- Normalized flight search criteria (Flight_Reservation_Info.hpp).
The C++ field `from` is spelled `from_` because `from` is a Lean keyword.
All int fields are brace-initialised to 0 in the source. -/
structure PassengerInfo where
  from_date : String := ""
  to_date : String := ""
  from_ : String := ""
  to_ : String := ""
  children : Int := 0
  adults : Int := 0
  infants : Int := 0
deriving DecidableEq

/-- Normalized flight search result (Flight_Reservation_Info.hpp);
`airline` is the brand discriminator. -/
structure FoundFlightInfo where
  airline : String := ""
  price : Rat := 0
  from_date : String := ""
  to_date : String := ""
deriving DecidableEq

/-- Normalized hotel search criteria (Hotel_Reservation_Info.hpp). -/
structure CustomerInfo where
  from_date : String := ""
  to_date : String := ""
  country : String := ""
  city : String := ""
  children : Int := 0
  adults : Int := 0
  needed_rooms : Int := 0
  number_of_nights : Int := 0
deriving DecidableEq

/-- Normalized hotel search result (Hotel_Reservation_Info.hpp);
`hotel` is the brand discriminator. -/
structure FoundRoomInfo where
  hotel : String := ""
  from_date : String := ""
  to_date : String := ""
  view_type : String := ""
  how_many : Int := 0
  price_for_night : Rat := 0
deriving DecidableEq

/-- Vendor-shaped criteria record of the Air Canada stub (Airport_APIs.hpp). -/
structure AirCanadaCustomerInfo where
  from_ : String := ""
  to_ : String := ""
  date_time_from : String := ""
  date_time_to : String := ""
  adults : Int := 0
  children : Int := 0
  infants : Int := 0
deriving DecidableEq

/-- Vendor-shaped flight record of the Air Canada stub (Airport_APIs.hpp). -/
structure AirCanadaFlight where
  price : Rat := 0
  date_time_from : String := ""
  date_time_to : String := ""
deriving DecidableEq

/-- Vendor-shaped criteria record of the Turkish Airlines stub. -/
structure TurkishCustomerInfo where
  from_ : String := ""
  to_ : String := ""
  datetime_from : String := ""
  datetime_to : String := ""
  adults : Int := 0
  children : Int := 0
  infants : Int := 0
deriving DecidableEq

/-- Vendor-shaped flight record of the Turkish Airlines stub. -/
structure TurkishFlight where
  cost : Rat := 0
  datetime_from : String := ""
  datetime_to : String := ""
deriving DecidableEq

/-- Vendor-shaped criteria record of the Hilton stub (Hotel_APIs.hpp). -/
structure HiltonCustomerInfo where
  country : String := ""
  city : String := ""
  date_from : String := ""
  date_to : String := ""
  needed_rooms : Int := 0
  adults : Int := 0
  children : Int := 0
  number_of_nights : Int := 0
deriving DecidableEq

/-- Vendor-shaped room record of the Hilton stub (Hotel_APIs.hpp). -/
structure HiltonRoom where
  room_type : String := ""
  available_number : Int := 0
  price_per_night : Rat := 0
  from_date : String := ""
  to_date : String := ""
deriving DecidableEq

/-- Vendor-shaped criteria record of the Marriott stub (Hotel_APIs.hpp). -/
structure MarriottCustomerInfo where
  country : String := ""
  city : String := ""
  date_from : String := ""
  date_to : String := ""
  needed_rooms : Int := 0
  adults : Int := 0
  children : Int := 0
  number_of_nights : Int := 0
deriving DecidableEq

/-- Vendor-shaped room record of the Marriott stub (Hotel_APIs.hpp). -/
structure MarriottFoundRoom where
  room_type : String := ""
  available_number : Int := 0
  price_per_night : Rat := 0
  date_from : String := ""
  date_to : String := ""
deriving DecidableEq

/-- AirCanadaOnlineAPI::getFlights (Airport_APIs.cpp): canned vendor data. -/
def AirCanadaOnlineAPI.getFlights : List AirCanadaFlight :=
  [{ price := 200, date_time_from := "25-01-2022", date_time_to := "10-02-2022" },
   { price := 250, date_time_from := "29-01-2022", date_time_to := "10-02-2022" }]

/-- TurkishAirlineOnlineAPI::getAvailableFlights (Airport_APIs.cpp). -/
def TurkishAirlineOnlineAPI.getAvailableFlights : List TurkishFlight :=
  [{ cost := 200, datetime_from := "25-01-2022", datetime_to := "10-02-2022" },
   { cost := 250, datetime_from := "29-01-2022", datetime_to := "10-02-2022" }]

/-- HiltonHotelAPI::searchRooms (Hotel_APIs.cpp): canned vendor data
(the customer-info argument is ignored by the stub). -/
def HiltonHotelAPI.searchRooms (_customer_info : HiltonCustomerInfo) : List HiltonRoom :=
  [{ room_type := "Interior View", available_number := 6, price_per_night := 200,
     from_date := "29-01-2022", to_date := "10-02-2022" },
   { room_type := "City View", available_number := 3, price_per_night := 300,
     from_date := "29-01-2022", to_date := "10-02-2022" },
   { room_type := "Deluxe View", available_number := 8, price_per_night := 500,
     from_date := "29-01-2022", to_date := "10-02-2022" }]

/-- MarriottHotelAPI::findRooms (Hotel_APIs.cpp). -/
def MarriottHotelAPI.findRooms (_customer_info : MarriottCustomerInfo) : List MarriottFoundRoom :=
  [{ room_type := "City View", available_number := 8, price_per_night := 320,
     date_from := "29-01-2022", date_to := "10-02-2022" },
   { room_type := "Interior View", available_number := 8, price_per_night := 220,
     date_from := "29-01-2022", date_to := "10-02-2022" },
   { room_type := "Private View", available_number := 5, price_per_night := 600,
     date_from := "29-01-2022", date_to := "10-02-2022" }]

/-- State of a CanadaFlightReservation adapter (Airports.cpp): it owns one
vendor-shaped criteria record and one vendor-shaped chosen-flight record,
both default-constructed (never null) by the default constructor. -/
structure CanadaFlightReservation where
  canada_customer_info : AirCanadaCustomerInfo := {}
  canada_chosen_flight : AirCanadaFlight := {}
deriving DecidableEq

/-- CanadaFlightReservation::setCustomerInfo (Airports.cpp, lines 62-70):
copies every field of the consumed PassengerInfo into the vendor record. -/
def CanadaFlightReservation.setCustomerInfo (this : CanadaFlightReservation)
    (info : PassengerInfo) : CanadaFlightReservation :=
  { this with canada_customer_info :=
    { this.canada_customer_info with
      from_ := info.from_
      to_ := info.to_
      date_time_from := info.from_date
      date_time_to := info.to_date
      adults := info.adults
      children := info.children
      infants := info.infants } }

/-- CanadaFlightReservation::setChosenFlight (Airports.cpp, lines 72-76). -/
def CanadaFlightReservation.setChosenFlight (this : CanadaFlightReservation)
    (info : FoundFlightInfo) : CanadaFlightReservation :=
  { this with canada_chosen_flight :=
    { this.canada_chosen_flight with
      date_time_from := info.from_date
      date_time_to := info.to_date
      price := info.price } }

/-- The two-argument CanadaFlightReservation constructor (Airports.cpp,
lines 20-25): default-construct, then run the two setters. -/
def CanadaFlightReservation.mk2 (customer_info : PassengerInfo)
    (chosen_flight : FoundFlightInfo) : CanadaFlightReservation :=
  (({} : CanadaFlightReservation).setCustomerInfo customer_info).setChosenFlight chosen_flight

/-- CanadaFlightReservation::getCost (Airports.cpp, lines 107-111):
price times (adults + children + infants); the int sum is converted to
double at the multiplication. -/
def CanadaFlightReservation.getCost (this : CanadaFlightReservation) : Rat :=
  this.canada_chosen_flight.price *
    ((this.canada_customer_info.adults + this.canada_customer_info.children +
      this.canada_customer_info.infants : Int) : Rat)

/-- State of a TurkishFlightReservation adapter (Airports.cpp). -/
structure TurkishFlightReservation where
  turkish_customer_info : TurkishCustomerInfo := {}
  turkish_chosen_flight : TurkishFlight := {}
deriving DecidableEq

/-- TurkishFlightReservation::setCustomerInfo (Airports.cpp, lines 176-184). -/
def TurkishFlightReservation.setCustomerInfo (this : TurkishFlightReservation)
    (info : PassengerInfo) : TurkishFlightReservation :=
  { this with turkish_customer_info :=
    { this.turkish_customer_info with
      from_ := info.from_
      to_ := info.to_
      datetime_from := info.from_date
      datetime_to := info.to_date
      adults := info.adults
      children := info.children
      infants := info.infants } }

/-- TurkishFlightReservation::setChosenFlight (Airports.cpp, lines 186-190). -/
def TurkishFlightReservation.setChosenFlight (this : TurkishFlightReservation)
    (info : FoundFlightInfo) : TurkishFlightReservation :=
  { this with turkish_chosen_flight :=
    { this.turkish_chosen_flight with
      datetime_from := info.from_date
      datetime_to := info.to_date
      cost := info.price } }

/-- The two-argument TurkishFlightReservation constructor (Airports.cpp,
lines 131-136). -/
def TurkishFlightReservation.mk2 (customer_info : PassengerInfo)
    (chosen_flight : FoundFlightInfo) : TurkishFlightReservation :=
  (({} : TurkishFlightReservation).setCustomerInfo customer_info).setChosenFlight chosen_flight

/-- TurkishFlightReservation::getCost (Airports.cpp, lines 218-222). -/
def TurkishFlightReservation.getCost (this : TurkishFlightReservation) : Rat :=
  this.turkish_chosen_flight.cost *
    ((this.turkish_customer_info.adults + this.turkish_customer_info.children +
      this.turkish_customer_info.infants : Int) : Rat)

/-- State of a HiltonHotelReservation adapter (Hotels.cpp). -/
structure HiltonHotelReservation where
  hilton_customer_info : HiltonCustomerInfo := {}
  hilton_chosen_room : HiltonRoom := {}
deriving DecidableEq

/-- HiltonHotelReservation::setCustomerInfo (Hotels.cpp, lines 56-65). -/
def HiltonHotelReservation.setCustomerInfo (this : HiltonHotelReservation)
    (info : CustomerInfo) : HiltonHotelReservation :=
  { this with hilton_customer_info :=
    { this.hilton_customer_info with
      country := info.country
      city := info.city
      date_from := info.from_date
      date_to := info.to_date
      adults := info.adults
      children := info.children
      needed_rooms := info.needed_rooms
      number_of_nights := info.number_of_nights } }

/-- HiltonHotelReservation::setChosenRoomInfo (Hotels.cpp, lines 81-86);
note the vendor record's available_number field is left untouched. -/
def HiltonHotelReservation.setChosenRoomInfo (this : HiltonHotelReservation)
    (room_info : FoundRoomInfo) : HiltonHotelReservation :=
  { this with hilton_chosen_room :=
    { this.hilton_chosen_room with
      price_per_night := room_info.price_for_night
      room_type := room_info.view_type
      from_date := room_info.from_date
      to_date := room_info.to_date } }

/-- The two-argument HiltonHotelReservation constructor (Hotels.cpp, lines 18-23). -/
def HiltonHotelReservation.mk2 (customer_info : CustomerInfo)
    (chosen_room : FoundRoomInfo) : HiltonHotelReservation :=
  (({} : HiltonHotelReservation).setCustomerInfo customer_info).setChosenRoomInfo chosen_room

/-- HiltonHotelReservation::getCost (Hotels.cpp, lines 114-118):
price per night times number of nights times needed rooms. -/
def HiltonHotelReservation.getCost (this : HiltonHotelReservation) : Rat :=
  this.hilton_chosen_room.price_per_night *
    ((this.hilton_customer_info.number_of_nights : Int) : Rat) *
    ((this.hilton_customer_info.needed_rooms : Int) : Rat)

/-- State of a MarriottHotelReservation adapter (Hotels.cpp). -/
structure MarriottHotelReservation where
  marriott_customer_info : MarriottCustomerInfo := {}
  marriott_chosen_room : MarriottFoundRoom := {}
deriving DecidableEq

/-- MarriottHotelReservation::setCustomerInfo (Hotels.cpp, lines 171-180). -/
def MarriottHotelReservation.setCustomerInfo (this : MarriottHotelReservation)
    (info : CustomerInfo) : MarriottHotelReservation :=
  { this with marriott_customer_info :=
    { this.marriott_customer_info with
      country := info.country
      city := info.city
      date_from := info.from_date
      date_to := info.to_date
      adults := info.adults
      children := info.children
      needed_rooms := info.needed_rooms
      number_of_nights := info.number_of_nights } }

/-- MarriottHotelReservation::setChosenRoomInfo (Hotels.cpp, lines 196-201). -/
def MarriottHotelReservation.setChosenRoomInfo (this : MarriottHotelReservation)
    (room_info : FoundRoomInfo) : MarriottHotelReservation :=
  { this with marriott_chosen_room :=
    { this.marriott_chosen_room with
      price_per_night := room_info.price_for_night
      room_type := room_info.view_type
      date_from := room_info.from_date
      date_to := room_info.to_date } }

/-- The two-argument MarriottHotelReservation constructor (Hotels.cpp, lines 126-131). -/
def MarriottHotelReservation.mk2 (customer_info : CustomerInfo)
    (chosen_room : FoundRoomInfo) : MarriottHotelReservation :=
  (({} : MarriottHotelReservation).setCustomerInfo customer_info).setChosenRoomInfo chosen_room

/-- MarriottHotelReservation::getCost (Hotels.cpp, lines 230-234). -/
def MarriottHotelReservation.getCost (this : MarriottHotelReservation) : Rat :=
  this.marriott_chosen_room.price_per_night *
    ((this.marriott_customer_info.number_of_nights : Int) : Rat) *
    ((this.marriott_customer_info.needed_rooms : Int) : Rat)

/-- C1: for every flight adapter whose criteria record holds adults a,
children c, infants i and whose chosen-flight record holds unit price p,
getCost() returns p*(a+c+i); and for every hotel adapter whose criteria
record holds number_of_nights n and needed_rooms r and whose chosen-room
record holds price-per-night p, getCost() returns p*n*r.  Stated through
the two-argument constructors, which seed the vendor-shaped records from
the normalized criteria and chosen-result records. -/
theorem claim_C1_adapter_cost_law :
    (∀ (pi : PassengerInfo) (fi : FoundFlightInfo),
      (CanadaFlightReservation.mk2 pi fi).getCost =
        fi.price * ((pi.adults + pi.children + pi.infants : Int) : Rat)) ∧
    (∀ (pi : PassengerInfo) (fi : FoundFlightInfo),
      (TurkishFlightReservation.mk2 pi fi).getCost =
        fi.price * ((pi.adults + pi.children + pi.infants : Int) : Rat)) ∧
    (∀ (ci : CustomerInfo) (ri : FoundRoomInfo),
      (HiltonHotelReservation.mk2 ci ri).getCost =
        ri.price_for_night * ((ci.number_of_nights : Int) : Rat) *
          ((ci.needed_rooms : Int) : Rat)) ∧
    (∀ (ci : CustomerInfo) (ri : FoundRoomInfo),
      (MarriottHotelReservation.mk2 ci ri).getCost =
        ri.price_for_night * ((ci.number_of_nights : Int) : Rat) *
          ((ci.needed_rooms : Int) : Rat)) := by
  refine ⟨fun pi fi => ?_, fun pi fi => ?_, fun ci ri => ?_, fun ci ri => ?_⟩ <;> rfl

/-- One value written to an std::ostream by an `<<` chain. -/
inductive Token where
  | str (s : String)
  | int (n : Int)
  | nat (n : Nat)
  | rat (q : Rat)
deriving DecidableEq

/-- CanadaFlightReservation copy constructor (Airports.cpp, lines 27-33):
default-construct, then assign both pointed-to records from `other`. -/
def CanadaFlightReservation.copyCtor (other : CanadaFlightReservation) :
    CanadaFlightReservation :=
  { canada_customer_info := other.canada_customer_info
    canada_chosen_flight := other.canada_chosen_flight }

/-- CanadaFlightReservation copy assignment (Airports.cpp, lines 42-50),
on the branch where the two objects are distinct: assigns both pointed-to
records from `other`. -/
def CanadaFlightReservation.copyAssign (this other : CanadaFlightReservation) :
    CanadaFlightReservation :=
  { this with
    canada_customer_info := other.canada_customer_info
    canada_chosen_flight := other.canada_chosen_flight }

/-- CanadaFlightReservation move constructor (Airports.cpp, lines 35-40).
The member initializers read the object's OWN not-yet-initialised members
(`canada_customer_info(std::move(canada_customer_info))`), never `other`;
the indeterminate contents of those members are abstracted by the `junk`
parameter, and `other` goes unused exactly as in the source. -/
def CanadaFlightReservation.moveCtor (junk : CanadaFlightReservation)
    (_other : CanadaFlightReservation) : CanadaFlightReservation :=
  junk

/-- CanadaFlightReservation move assignment (Airports.cpp, lines 52-60), on
the branch where the two objects are distinct: both statements self-move the
object's own members (`canada_customer_info = std::move(canada_customer_info)`),
which for libstdc++ unique_ptr leaves them unchanged, and `other` goes
unused exactly as in the source. -/
def CanadaFlightReservation.moveAssign (this : CanadaFlightReservation)
    (_other : CanadaFlightReservation) : CanadaFlightReservation :=
  this

/-- CanadaFlightReservation::getDetails (Airports.cpp, lines 91-102), as the
ordered stream of values written to the sink. -/
def CanadaFlightReservation.getDetails (this : CanadaFlightReservation) : List Token :=
  [Token.str "Airline Reservation/ AirCanada Airline: \n", Token.str "From: ",
   Token.str this.canada_customer_info.from_, Token.str "  on: ",
   Token.str this.canada_customer_info.date_time_from, Token.str "  To: ",
   Token.str this.canada_customer_info.to_, Token.str "  on: ",
   Token.str this.canada_customer_info.date_time_to, Token.str "\n",
   Token.str "\t\tAdults: ", Token.int this.canada_customer_info.adults,
   Token.str "  -  Children: ", Token.int this.canada_customer_info.children,
   Token.str "  -  Infants: ", Token.int this.canada_customer_info.infants,
   Token.str "\n", Token.str "\t\tFlight Cost: ", Token.rat this.getCost]

/-- TurkishFlightReservation copy constructor (Airports.cpp, lines 138-146):
default-construct, then assign both records from `other` (the null guards on
`other`'s pointers are vacuous here since the records are modelled as values). -/
def TurkishFlightReservation.copyCtor (other : TurkishFlightReservation) :
    TurkishFlightReservation :=
  { turkish_customer_info := other.turkish_customer_info
    turkish_chosen_flight := other.turkish_chosen_flight }

/-- TurkishFlightReservation copy assignment (Airports.cpp, lines 155-165),
distinct-objects branch. -/
def TurkishFlightReservation.copyAssign (this other : TurkishFlightReservation) :
    TurkishFlightReservation :=
  { this with
    turkish_customer_info := other.turkish_customer_info
    turkish_chosen_flight := other.turkish_chosen_flight }

/-- TurkishFlightReservation move constructor (Airports.cpp, lines 148-153):
like the Canada move constructor it moves from the object's OWN
not-yet-initialised members and never reads `other`. -/
def TurkishFlightReservation.moveCtor (junk : TurkishFlightReservation)
    (_other : TurkishFlightReservation) : TurkishFlightReservation :=
  junk

/-- TurkishFlightReservation move assignment (Airports.cpp, lines 167-174),
distinct-objects branch: this one correctly moves both records from `other`. -/
def TurkishFlightReservation.moveAssign (_this other : TurkishFlightReservation) :
    TurkishFlightReservation :=
  { turkish_customer_info := other.turkish_customer_info
    turkish_chosen_flight := other.turkish_chosen_flight }

/-- TurkishFlightReservation::getDetails (Airports.cpp, lines 205-216);
note the source writes "  -  " (with no "Infants:" label) before the infant
count. -/
def TurkishFlightReservation.getDetails (this : TurkishFlightReservation) : List Token :=
  [Token.str "Airline Reservation/ Turkish Airline: \n", Token.str "From: ",
   Token.str this.turkish_customer_info.from_, Token.str "  on: ",
   Token.str this.turkish_customer_info.datetime_from, Token.str "  To: ",
   Token.str this.turkish_customer_info.to_, Token.str "  on: ",
   Token.str this.turkish_customer_info.datetime_to, Token.str "\n",
   Token.str "\t\tAdults: ", Token.int this.turkish_customer_info.adults,
   Token.str "  -  Children: ", Token.int this.turkish_customer_info.children,
   Token.str "  -  ", Token.int this.turkish_customer_info.infants,
   Token.str "\n", Token.str "\t\tFlight Cost: ", Token.rat this.getCost]

/-- HiltonHotelReservation copy constructor (Hotels.cpp, lines 25-30). -/
def HiltonHotelReservation.copyCtor (other : HiltonHotelReservation) :
    HiltonHotelReservation :=
  { hilton_customer_info := other.hilton_customer_info
    hilton_chosen_room := other.hilton_chosen_room }

/-- HiltonHotelReservation copy assignment (Hotels.cpp, lines 38-45),
distinct-objects branch. -/
def HiltonHotelReservation.copyAssign (this other : HiltonHotelReservation) :
    HiltonHotelReservation :=
  { this with
    hilton_customer_info := other.hilton_customer_info
    hilton_chosen_room := other.hilton_chosen_room }

/-- HiltonHotelReservation move constructor (Hotels.cpp, lines 32-36):
correctly moves both records from `other`. -/
def HiltonHotelReservation.moveCtor (other : HiltonHotelReservation) :
    HiltonHotelReservation :=
  { hilton_customer_info := other.hilton_customer_info
    hilton_chosen_room := other.hilton_chosen_room }

/-- HiltonHotelReservation::getDetails (Hotels.cpp, lines 87-98). -/
def HiltonHotelReservation.getDetails (this : HiltonHotelReservation) : List Token :=
  [Token.str "Hotel Reservation / Hilton Hotel: ",
   Token.str this.hilton_customer_info.country, Token.str " @ ",
   Token.str this.hilton_customer_info.city, Token.str "  from ",
   Token.str this.hilton_customer_info.date_from, Token.str "  to ",
   Token.str this.hilton_customer_info.date_to, Token.str " (",
   Token.int this.hilton_customer_info.number_of_nights, Token.str ")\n",
   Token.str "\t\tAdults: ", Token.int this.hilton_customer_info.adults,
   Token.str "\n\t\tChildren: ", Token.int this.hilton_customer_info.children,
   Token.str "\n\t\tRoom Cost For All Nights: ", Token.rat this.getCost,
   Token.str "\n"]

/-- MarriottHotelReservation copy constructor (Hotels.cpp, lines 133-141). -/
def MarriottHotelReservation.copyCtor (other : MarriottHotelReservation) :
    MarriottHotelReservation :=
  { marriott_customer_info := other.marriott_customer_info
    marriott_chosen_room := other.marriott_chosen_room }

/-- MarriottHotelReservation::getDetails (Hotels.cpp, lines 202-214). -/
def MarriottHotelReservation.getDetails (this : MarriottHotelReservation) : List Token :=
  [Token.str "Hotel Reservation / Marriott Hotel: ",
   Token.str this.marriott_customer_info.country, Token.str " @ ",
   Token.str this.marriott_customer_info.city, Token.str "  from ",
   Token.str this.marriott_customer_info.date_from, Token.str "  to ",
   Token.str this.marriott_customer_info.date_to, Token.str " (",
   Token.int this.marriott_customer_info.number_of_nights, Token.str ")\n",
   Token.str "\t\tAdults: ", Token.int this.marriott_customer_info.adults,
   Token.str "\n\t\tChildren: ", Token.int this.marriott_customer_info.children,
   Token.str "\n\t\tRoom Cost For ALl Nights: ", Token.rat this.getCost,
   Token.str "\n"]

/-- The polymorphic Reservation hierarchy (Reservation.hpp): the concrete
variants are the four vendor adapters and the Itinerary composite, whose
vector of owned Reservation_ptr is modelled as a list of child values. -/
inductive Reservation where
  | canada (r : CanadaFlightReservation)
  | turkish (r : TurkishFlightReservation)
  | hilton (r : HiltonHotelReservation)
  | marriott (r : MarriottHotelReservation)
  | itinerary (Reservations : List Reservation)

mutual

/-- Virtual getCost dispatch; Itinerary::getCost (Itinerary.cpp, lines 56-59)
runs std::for_each with a Sum functor over the children, which is a left
fold with a zero-initialised accumulator. -/
def Reservation.getCost : Reservation → Rat
  | .canada r => r.getCost
  | .turkish r => r.getCost
  | .hilton r => r.getCost
  | .marriott r => r.getCost
  | .itinerary rs => (Reservation.costList rs).foldl (fun sum c => sum + c) 0

/-- The per-child costs gathered by Itinerary::getCost, in order. -/
def Reservation.costList : List Reservation → List Rat
  | [] => []
  | r :: rs => Reservation.getCost r :: Reservation.costList rs

end

mutual

/-- Virtual clone dispatch: each adapter's clone (e.g. Airports.cpp,
lines 103-105) is make_unique of a copy-constructed adapter; Itinerary::clone
(Itinerary.cpp, lines 61-63) is make_unique of a copy-constructed Itinerary,
whose copy constructor (lines 18-21) addReservation-appends a clone of every
child of the source in order. -/
def Reservation.clone : Reservation → Reservation
  | .canada r => .canada r.copyCtor
  | .turkish r => .turkish r.copyCtor
  | .hilton r => .hilton r.copyCtor
  | .marriott r => .marriott r.copyCtor
  | .itinerary rs => .itinerary (Reservation.cloneList rs)

/-- The clones appended by the Itinerary copy constructor, in order. -/
def Reservation.cloneList : List Reservation → List Reservation
  | [] => []
  | r :: rs => Reservation.clone r :: Reservation.cloneList rs

end

mutual

/-- Virtual getDetails dispatch; Itinerary::getDetails (Itinerary.cpp,
lines 65-75) writes a header with the child count, every child's details in
order, the aggregate cost and a separator (the lone "\n" after each child on
line 71 goes to std::cout, not to the sink, so it is not part of the sink's
stream). -/
def Reservation.getDetails : Reservation → List Token
  | .canada r => r.getDetails
  | .turkish r => r.getDetails
  | .hilton r => r.getDetails
  | .marriott r => r.getDetails
  | .itinerary rs =>
      [Token.str "Itinerary of ", Token.nat rs.length,
       Token.str " sub-reservations: \n"] ++
      Reservation.detailsList rs ++
      [Token.str "\nItinerary Cost: ",
       Token.rat (Reservation.getCost (.itinerary rs)),
       Token.str "\n----------------------------------\n"]

/-- Concatenated details of the itinerary's children, in order. -/
def Reservation.detailsList : List Reservation → List Token
  | [] => []
  | r :: rs => Reservation.getDetails r ++ Reservation.detailsList rs

end

/-- Itinerary::addReservation (Itinerary.cpp, lines 41-43): push_back a
clone of the argument, never the argument itself. -/
def Itinerary.addReservation (Reservations : List Reservation)
    (reservation : Reservation) : List Reservation :=
  Reservations ++ [reservation.clone]

/-- Itinerary::clear (Itinerary.cpp, lines 45-47). -/
def Itinerary.clear (_Reservations : List Reservation) : List Reservation :=
  []

/-- Itinerary::isEmpty (Itinerary.cpp, lines 49-54). -/
def Itinerary.isEmpty (Reservations : List Reservation) : Bool :=
  if Reservations.isEmpty then true else false

/-- Itinerary copy constructor (Itinerary.cpp, lines 18-21): starts from the
default-constructed empty vector and addReservation-appends every child of
the source. -/
def Itinerary.copyCtor (other : List Reservation) : List Reservation :=
  other.foldl Itinerary.addReservation []

/-- Itinerary copy assignment (Itinerary.cpp, lines 27-33), distinct-objects
branch: addReservation-appends every child of the source WITHOUT clearing
the destination first. -/
def Itinerary.copyAssign (this other : List Reservation) : List Reservation :=
  other.foldl Itinerary.addReservation this

/-- Itinerary move constructor (Itinerary.cpp, lines 23-25): takes the whole
vector of the source. -/
def Itinerary.moveCtor (other : List Reservation) : List Reservation :=
  other

/-- Itinerary move assignment (Itinerary.cpp, lines 35-39), distinct-objects
branch: replaces the destination vector by the whole vector of the source. -/
def Itinerary.moveAssign (_this other : List Reservation) : List Reservation :=
  other

mutual

/-- In the value model a clone is equal (as a value) to its source: every
copy constructor copies both owned records, and the Itinerary copy
constructor clones every child in order. -/
theorem Reservation.clone_eq : ∀ r : Reservation, r.clone = r
  | .canada r => by
      simp [Reservation.clone, CanadaFlightReservation.copyCtor]
  | .turkish r => by
      simp [Reservation.clone, TurkishFlightReservation.copyCtor]
  | .hilton r => by
      simp [Reservation.clone, HiltonHotelReservation.copyCtor]
  | .marriott r => by
      simp [Reservation.clone, MarriottHotelReservation.copyCtor]
  | .itinerary rs => by
      rw [Reservation.clone, Reservation.cloneList_eq rs]

/-- List version of `Reservation.clone_eq`. -/
theorem Reservation.cloneList_eq : ∀ rs : List Reservation, Reservation.cloneList rs = rs
  | [] => rfl
  | r :: rs => by
      rw [Reservation.cloneList, Reservation.clone_eq r, Reservation.cloneList_eq rs]

end

/-- The per-child cost list is the map of getCost over the children. -/
theorem Reservation.costList_eq_map :
    ∀ rs : List Reservation, Reservation.costList rs = rs.map Reservation.getCost
  | [] => rfl
  | r :: rs => by
      rw [Reservation.costList, Reservation.costList_eq_map rs, List.map_cons]

/-- The Sum-functor left fold over rational costs computes the list sum. -/
theorem foldl_add_eq_sum (l : List Rat) :
    ∀ a : Rat, l.foldl (fun sum c => sum + c) a = a + l.sum := by
  induction l with
  | nil => intro a; simp
  | cons c l ih => intro a; simp [List.foldl_cons, ih, add_assoc]

/-- Folding addReservation appends the clones of the added reservations. -/
theorem Itinerary.foldl_addReservation (rs : List Reservation) :
    ∀ acc : List Reservation,
      rs.foldl Itinerary.addReservation acc = acc ++ Reservation.cloneList rs := by
  induction rs with
  | nil => intro acc; simp [Reservation.cloneList]
  | cons r rs ih =>
      intro acc
      rw [List.foldl_cons, ih, Reservation.cloneList]
      simp [Itinerary.addReservation]

/-- C2: for every sequence of reservations r1..rn added through
Itinerary::addReservation to a fresh Itinerary, getCost() equals the sum of
the getCost() of the added reservations, and a freshly constructed or
freshly cleared Itinerary has isEmpty() true and getCost() 0. -/
theorem claim_C2_itinerary_aggregate_law :
    (∀ rs : List Reservation,
      Reservation.getCost (.itinerary (rs.foldl Itinerary.addReservation [])) =
        (rs.map Reservation.getCost).sum) ∧
    (Itinerary.isEmpty [] = true ∧ Reservation.getCost (.itinerary []) = 0) ∧
    (∀ rs : List Reservation,
      Itinerary.isEmpty (Itinerary.clear rs) = true ∧
        Reservation.getCost (.itinerary (Itinerary.clear rs)) = 0) := by
  have hempty : Reservation.getCost (.itinerary []) = 0 := by
    simp [Reservation.getCost, Reservation.costList]
  refine ⟨fun rs => ?_, ⟨rfl, hempty⟩, fun rs => ⟨rfl, hempty⟩⟩
  rw [Itinerary.foldl_addReservation, List.nil_append, Reservation.cloneList_eq,
    Reservation.getCost, Reservation.costList_eq_map, foldl_add_eq_sum, zero_add]

/-- CanadaFlightReservation::getAvailableFlights (Airports.cpp, lines 78-89):
fetch the vendor stub's offers, tag each with the brand name "Canada" and
push_back the normalized records onto the caller's collection. -/
def CanadaFlightReservation.getAvailableFlights (_this : CanadaFlightReservation)
    (flights : List FoundFlightInfo) : List FoundFlightInfo :=
  flights ++ AirCanadaOnlineAPI.getFlights.map (fun f =>
    { airline := "Canada", price := f.price,
      from_date := f.date_time_from, to_date := f.date_time_to })

/-- TurkishFlightReservation::getAvailableFlights (Airports.cpp, lines 192-203). -/
def TurkishFlightReservation.getAvailableFlights (_this : TurkishFlightReservation)
    (flights : List FoundFlightInfo) : List FoundFlightInfo :=
  flights ++ TurkishAirlineOnlineAPI.getAvailableFlights.map (fun f =>
    { airline := "Turkish", price := f.cost,
      from_date := f.datetime_from, to_date := f.datetime_to })

/-- HiltonHotelReservation::getAvailableRooms (Hotels.cpp, lines 67-79):
queries the stub with the adapter's stored criteria, tags each offer with
"Hilton" and appends it to the caller's collection. -/
def HiltonHotelReservation.getAvailableRooms (this : HiltonHotelReservation)
    (rooms : List FoundRoomInfo) : List FoundRoomInfo :=
  rooms ++ (HiltonHotelAPI.searchRooms this.hilton_customer_info).map (fun room =>
    { hotel := "Hilton", from_date := room.from_date, to_date := room.to_date,
      view_type := room.room_type, how_many := room.available_number,
      price_for_night := room.price_per_night })

/-- MarriottHotelReservation::getAvailableRooms (Hotels.cpp, lines 182-194). -/
def MarriottHotelReservation.getAvailableRooms (this : MarriottHotelReservation)
    (rooms : List FoundRoomInfo) : List FoundRoomInfo :=
  rooms ++ (MarriottHotelAPI.findRooms this.marriott_customer_info).map (fun room =>
    { hotel := "Marriott", from_date := room.date_from, to_date := room.date_to,
      view_type := room.room_type, how_many := room.available_number,
      price_for_night := room.price_per_night })

/-- The registered flight adapters of MakeReservation
(Make_Reservation.cpp, lines 18-19), in registration order, each viewed
through its getAvailableFlights capability. -/
def MakeReservation.Airports : List (List FoundFlightInfo → List FoundFlightInfo) :=
  [({} : CanadaFlightReservation).getAvailableFlights,
   ({} : TurkishFlightReservation).getAvailableFlights]

/-- The registered hotel adapters of MakeReservation
(Make_Reservation.cpp, lines 20-21). -/
def MakeReservation.Hotels : List (List FoundRoomInfo → List FoundRoomInfo) :=
  [({} : HiltonHotelReservation).getAvailableRooms,
   ({} : MarriottHotelReservation).getAvailableRooms]

/-- The merge loop of MakeReservation::reservingFlight
(Make_Reservation.cpp, lines 59-61): every registered flight adapter appends
its results to one shared collection. -/
def MakeReservation.mergeFlights (available_flights : List FoundFlightInfo) :
    List FoundFlightInfo :=
  MakeReservation.Airports.foldl (fun acc g => g acc) available_flights

/-- The merge loop of MakeReservation::reservingRoom
(Make_Reservation.cpp, lines 93-96). -/
def MakeReservation.mergeRooms (available_rooms : List FoundRoomInfo) :
    List FoundRoomInfo :=
  MakeReservation.Hotels.foldl (fun acc g => g acc) available_rooms

/-- Models std::vector operator[] at an int index (the source converts the
int to the unsigned size_type): any out-of-range access, negative included,
is undefined behaviour in the source and surfaces as none here. -/
def vectorGet {α : Type} (l : List α) (i : Int) : Option α :=
  if i < 0 then none else l.get? i.toNat

/-- The selection step shared by MakeReservation::reservingFlight
(Make_Reservation.cpp, lines 67-73) and reservingRoom (lines 102-107):
return nullptr when the guard (choice == -1 || choice > size) fires,
otherwise access element choice - 1.  The outer none marks the guard NOT
firing while the element access is out of bounds (undefined behaviour in
the source); some none models returning nullptr; some (some x) is a
successful selection. -/
def selectChosen {α : Type} (available : List α) (choice : Int) : Option (Option α) :=
  if choice = -1 ∨ choice > (available.length : Int) then
    some none
  else
    match vectorGet available (choice - 1) with
    | none => none
    | some x => some (some x)

/-- MakeReservation::ReservationFactory (Make_Reservation.cpp, lines 25-40):
dispatch on the brand discriminator; an unmatched brand falls through to
nullptr.  The stored criteria/chosen-result records are modelled at their
dereferenced values (each branch only dereferences the pair that its
calling workflow has populated). -/
def MakeReservation.ReservationFactory (brand : String)
    (passenger_info : PassengerInfo) (chosen_flight : FoundFlightInfo)
    (customer_info : CustomerInfo) (chosen_room : FoundRoomInfo) :
    Option Reservation :=
  if brand = "Canada" then
    some (.canada (CanadaFlightReservation.mk2 passenger_info chosen_flight))
  else if brand = "Turkish" then
    some (.turkish (TurkishFlightReservation.mk2 passenger_info chosen_flight))
  else if brand = "Hilton" then
    some (.hilton (HiltonHotelReservation.mk2 customer_info chosen_room))
  else if brand = "Marriott" then
    some (.marriott (MarriottHotelReservation.mk2 customer_info chosen_room))
  else
    none

/-- MakeReservation::reservingFlight (Make_Reservation.cpp, lines 42-75) as a
function of the user's console inputs: collect a PassengerInfo, merge the
available flights of every registered adapter into one fresh collection,
read a choice and hand the chosen record's brand to the factory.  The outer
Option marks the out-of-bounds access (undefined behaviour) of an unguarded
choice; the inner Option is the returned Reservation_ptr, none for nullptr.
In this workflow the hotel records stay nullptr; they are passed as defaults
because no flight brand tag ever reaches a hotel branch of the factory. -/
def MakeReservation.reservingFlight (from_ from_date to_ to_date : String)
    (adults children infants : Int) (choice : Int) : Option (Option Reservation) :=
  let passenger_info : PassengerInfo :=
    { from_ := from_, from_date := from_date, to_ := to_, to_date := to_date,
      adults := adults, children := children, infants := infants }
  let available_flights := MakeReservation.mergeFlights []
  match selectChosen available_flights choice with
  | none => none
  | some none => some none
  | some (some chosen_flight) =>
      some (MakeReservation.ReservationFactory chosen_flight.airline
        passenger_info chosen_flight {} {})

/-- MakeReservation::reservingRoom (Make_Reservation.cpp, lines 77-109):
like reservingFlight, but note that the collected CustomerInfo never reads
needed_rooms from the user (lines 81-92), so that field keeps its
brace-initialised value 0. -/
def MakeReservation.reservingRoom (country city from_date to_date : String)
    (adults children number_of_nights : Int) (choice : Int) :
    Option (Option Reservation) :=
  let customer_info : CustomerInfo :=
    { country := country, city := city, from_date := from_date,
      to_date := to_date, adults := adults, children := children,
      number_of_nights := number_of_nights }
  let available_rooms := MakeReservation.mergeRooms []
  match selectChosen available_rooms choice with
  | none => none
  | some none => some none
  | some (some chosen_room) =>
      some (MakeReservation.ReservationFactory chosen_room.hotel
        {} {} customer_info chosen_room)

/-- A successful vector access yields an element of the vector. -/
theorem vectorGet_mem {α : Type} {l : List α} {i : Int} {x : α}
    (h : vectorGet l i = some x) : x ∈ l := by
  unfold vectorGet at h
  split at h
  · exact absurd h (by simp)
  · exact List.get?_mem h

/-- A successful selection yields an element of the merged list. -/
theorem selectChosen_mem {α : Type} {l : List α} {choice : Int} {x : α}
    (h : selectChosen l choice = some (some x)) : x ∈ l := by
  unfold selectChosen at h
  split at h
  · simp at h
  · rcases hv : vectorGet l (choice - 1) with _ | y
    · rw [hv] at h; simp at h
    · rw [hv] at h
      simp only [Option.some.injEq] at h
      exact h ▸ vectorGet_mem hv

/-- C9: getAvailableFlights / getAvailableRooms append to the caller's
collection without clearing it, each appended record tagged with the
adapter's brand, and running them across the registered adapters grows the
merged collection by the sum of the per-adapter contributions
(2 + 2 flights, 3 + 3 rooms with the canned vendor stubs). -/
theorem claim_C9_merge_law :
    (∀ (r : CanadaFlightReservation) (flights : List FoundFlightInfo),
      r.getAvailableFlights flights = flights ++
        [{ airline := "Canada", price := 200,
           from_date := "25-01-2022", to_date := "10-02-2022" },
         { airline := "Canada", price := 250,
           from_date := "29-01-2022", to_date := "10-02-2022" }]) ∧
    (∀ (r : TurkishFlightReservation) (flights : List FoundFlightInfo),
      r.getAvailableFlights flights = flights ++
        [{ airline := "Turkish", price := 200,
           from_date := "25-01-2022", to_date := "10-02-2022" },
         { airline := "Turkish", price := 250,
           from_date := "29-01-2022", to_date := "10-02-2022" }]) ∧
    (∀ (r : HiltonHotelReservation) (rooms : List FoundRoomInfo),
      r.getAvailableRooms rooms = rooms ++
        [{ hotel := "Hilton", from_date := "29-01-2022", to_date := "10-02-2022",
           view_type := "Interior View", how_many := 6, price_for_night := 200 },
         { hotel := "Hilton", from_date := "29-01-2022", to_date := "10-02-2022",
           view_type := "City View", how_many := 3, price_for_night := 300 },
         { hotel := "Hilton", from_date := "29-01-2022", to_date := "10-02-2022",
           view_type := "Deluxe View", how_many := 8, price_for_night := 500 }]) ∧
    (∀ (r : MarriottHotelReservation) (rooms : List FoundRoomInfo),
      r.getAvailableRooms rooms = rooms ++
        [{ hotel := "Marriott", from_date := "29-01-2022", to_date := "10-02-2022",
           view_type := "City View", how_many := 8, price_for_night := 320 },
         { hotel := "Marriott", from_date := "29-01-2022", to_date := "10-02-2022",
           view_type := "Interior View", how_many := 8, price_for_night := 220 },
         { hotel := "Marriott", from_date := "29-01-2022", to_date := "10-02-2022",
           view_type := "Private View", how_many := 5, price_for_night := 600 }]) ∧
    (∀ init : List FoundFlightInfo,
      (MakeReservation.mergeFlights init).length = init.length + (2 + 2) ∧
      (MakeReservation.mergeFlights init).take init.length = init ∧
      ((MakeReservation.mergeFlights init).drop init.length).all
        (fun f => f.airline = "Canada" ∨ f.airline = "Turkish") = true) ∧
    (∀ init : List FoundRoomInfo,
      (MakeReservation.mergeRooms init).length = init.length + (3 + 3) ∧
      (MakeReservation.mergeRooms init).take init.length = init ∧
      ((MakeReservation.mergeRooms init).drop init.length).all
        (fun room => room.hotel = "Hilton" ∨ room.hotel = "Marriott") = true) := by
  refine ⟨fun r flights => rfl, fun r flights => rfl, fun r rooms => rfl,
    fun r rooms => rfl, fun init => ?_, fun init => ?_⟩ <;>
    refine ⟨?_, ?_, ?_⟩ <;>
    simp [MakeReservation.mergeFlights, MakeReservation.mergeRooms,
      MakeReservation.Airports, MakeReservation.Hotels,
      CanadaFlightReservation.getAvailableFlights,
      TurkishFlightReservation.getAvailableFlights,
      HiltonHotelReservation.getAvailableRooms,
      MarriottHotelReservation.getAvailableRooms,
      AirCanadaOnlineAPI.getFlights, TurkishAirlineOnlineAPI.getAvailableFlights,
      HiltonHotelAPI.searchRooms, MarriottHotelAPI.findRooms,
      List.take_append, List.drop_append]

/-- C10: a brand string matching none of the four registered discriminators
makes the factory return no reservation. -/
theorem claim_C10_factory_unmatched_brand (brand : String)
    (pi : PassengerInfo) (cf : FoundFlightInfo)
    (ci : CustomerInfo) (cr : FoundRoomInfo)
    (h1 : brand ≠ "Canada") (h2 : brand ≠ "Turkish")
    (h3 : brand ≠ "Hilton") (h4 : brand ≠ "Marriott") :
    MakeReservation.ReservationFactory brand pi cf ci cr = none := by
  simp [MakeReservation.ReservationFactory, h1, h2, h3, h4]

/-- Witness for C10 at the concrete unmatched brand "Delta". -/
theorem claim_C10_witness :
    ("Delta" ≠ "Canada" ∧ "Delta" ≠ "Turkish" ∧
     "Delta" ≠ "Hilton" ∧ "Delta" ≠ "Marriott") ∧
    MakeReservation.ReservationFactory "Delta" {} {} {} {} = none :=
  ⟨⟨by decide, by decide, by decide, by decide⟩,
    claim_C10_factory_unmatched_brand "Delta" {} {} {} {}
      (by decide) (by decide) (by decide) (by decide)⟩

/-- C3 (code bug): the selection guard only tests choice == -1 and
choice > size, so the choices 0, -2, -3, ... slip through and index the
merged vector out of bounds (element choice - 1, i.e. index -1 for
choice = 0) instead of aborting with no reservation: with the empty merged
list and in the full workflows (whose merged lists hold 4 flights and
6 rooms), choice 0 and choice -2 reach the out-of-bounds access (outer
none), although the claim requires every such choice to return no
reservation without any out-of-bounds access. -/
theorem claim_C3_unguarded_choice_reaches_out_of_bounds :
    selectChosen ([] : List FoundFlightInfo) 0 = none ∧
    MakeReservation.reservingFlight "Toronto" "25-01-2022" "Istanbul"
      "10-02-2022" 2 1 0 0 = none ∧
    MakeReservation.reservingFlight "Toronto" "25-01-2022" "Istanbul"
      "10-02-2022" 2 1 0 (-2) = none ∧
    MakeReservation.reservingRoom "Egypt" "Cairo" "25-01-2022"
      "10-02-2022" 2 1 3 0 = none ∧
    (MakeReservation.mergeFlights []).length = 4 ∧
    (MakeReservation.mergeRooms []).length = 6 := by
  refine ⟨rfl, rfl, rfl, rfl, rfl, rfl⟩

/-- C4: every hotel reservation the builder workflow produces has cost 0,
because reservingRoom never reads needed_rooms from the user, so the
criteria record keeps needed_rooms = 0 and the cost product
price-per-night x nights x rooms collapses to 0. -/
theorem claim_C4_room_reservation_cost_zero
    (country city from_date to_date : String)
    (adults children number_of_nights choice : Int) (r : Reservation)
    (h : MakeReservation.reservingRoom country city from_date to_date
      adults children number_of_nights choice = some (some r)) :
    Reservation.getCost r = 0 := by
  rw [MakeReservation.reservingRoom] at h
  rcases hsel : selectChosen (MakeReservation.mergeRooms []) choice with _ | ⟨_ | room⟩
  · rw [hsel] at h; exact absurd h (by simp)
  · rw [hsel] at h; exact absurd h (by simp)
  · rw [hsel] at h
    simp only [Option.some.injEq] at h
    have hmem : room ∈ MakeReservation.mergeRooms [] := selectChosen_mem hsel
    have hrooms : MakeReservation.mergeRooms [] =
        [{ hotel := "Hilton", from_date := "29-01-2022", to_date := "10-02-2022",
           view_type := "Interior View", how_many := 6, price_for_night := 200 },
         { hotel := "Hilton", from_date := "29-01-2022", to_date := "10-02-2022",
           view_type := "City View", how_many := 3, price_for_night := 300 },
         { hotel := "Hilton", from_date := "29-01-2022", to_date := "10-02-2022",
           view_type := "Deluxe View", how_many := 8, price_for_night := 500 },
         { hotel := "Marriott", from_date := "29-01-2022", to_date := "10-02-2022",
           view_type := "City View", how_many := 8, price_for_night := 320 },
         { hotel := "Marriott", from_date := "29-01-2022", to_date := "10-02-2022",
           view_type := "Interior View", how_many := 8, price_for_night := 220 },
         { hotel := "Marriott", from_date := "29-01-2022", to_date := "10-02-2022",
           view_type := "Private View", how_many := 5, price_for_night := 600 }] := rfl
    rw [hrooms] at hmem
    simp only [List.mem_cons, List.not_mem_nil, or_false] at hmem
    rcases hmem with h6 | h6 | h6 | h6 | h6 | h6 <;>
      subst h6 <;>
      simp only [MakeReservation.ReservationFactory, String.reduceEq, reduceIte,
        Option.some.injEq] at h <;>
      rcases h with rfl <;>
      simp [Reservation.getCost, HiltonHotelReservation.getCost,
        MarriottHotelReservation.getCost, HiltonHotelReservation.mk2,
        MarriottHotelReservation.mk2, HiltonHotelReservation.setCustomerInfo,
        MarriottHotelReservation.setCustomerInfo,
        HiltonHotelReservation.setChosenRoomInfo,
        MarriottHotelReservation.setChosenRoomInfo]

/-- Witness for C4: with choice 1 the workflow books the first Hilton room
and the resulting reservation has cost 0. -/
theorem claim_C4_witness :
    MakeReservation.reservingRoom "Egypt" "Cairo" "25-01-2022" "10-02-2022"
      2 1 3 1 = some (some (Reservation.hilton (HiltonHotelReservation.mk2
        { country := "Egypt", city := "Cairo", from_date := "25-01-2022",
          to_date := "10-02-2022", adults := 2, children := 1,
          number_of_nights := 3 }
        { hotel := "Hilton", from_date := "29-01-2022", to_date := "10-02-2022",
          view_type := "Interior View", how_many := 6,
          price_for_night := 200 }))) ∧
    Reservation.getCost (Reservation.hilton (HiltonHotelReservation.mk2
        { country := "Egypt", city := "Cairo", from_date := "25-01-2022",
          to_date := "10-02-2022", adults := 2, children := 1,
          number_of_nights := 3 }
        { hotel := "Hilton", from_date := "29-01-2022", to_date := "10-02-2022",
          view_type := "Interior View", how_many := 6,
          price_for_night := 200 })) = 0 := by
  have h : MakeReservation.reservingRoom "Egypt" "Cairo" "25-01-2022"
      "10-02-2022" 2 1 3 1 = some (some (Reservation.hilton
        (HiltonHotelReservation.mk2
        { country := "Egypt", city := "Cairo", from_date := "25-01-2022",
          to_date := "10-02-2022", adults := 2, children := 1,
          number_of_nights := 3 }
        { hotel := "Hilton", from_date := "29-01-2022", to_date := "10-02-2022",
          view_type := "Interior View", how_many := 6,
          price_for_night := 200 }))) := rfl
  exact ⟨h, claim_C4_room_reservation_cost_zero "Egypt" "Cairo" "25-01-2022"
    "10-02-2022" 2 1 3 1 _ h⟩

/-- C7 (code bug): the CanadaFlightReservation move constructor and move
assignment and the TurkishFlightReservation move constructor never read the
source object `other` (they move from the destination's own fields,
Airports.cpp lines 37, 56-57 and 150), so move construction/assignment from
an adapter holding state s does NOT produce an adapter holding s: here a
source with cost 600 yields a destination with cost 0. -/
theorem claim_C7_flight_move_ignores_source :
    (∀ junk o1 o2 : CanadaFlightReservation,
      CanadaFlightReservation.moveCtor junk o1 =
        CanadaFlightReservation.moveCtor junk o2) ∧
    (∀ this other : CanadaFlightReservation,
      CanadaFlightReservation.moveAssign this other = this) ∧
    (∀ junk o1 o2 : TurkishFlightReservation,
      TurkishFlightReservation.moveCtor junk o1 =
        TurkishFlightReservation.moveCtor junk o2) ∧
    (CanadaFlightReservation.mk2 { adults := 3 } { price := 200 }).getCost = 600 ∧
    (CanadaFlightReservation.moveCtor {}
      (CanadaFlightReservation.mk2 { adults := 3 } { price := 200 })).getCost = 0 ∧
    (CanadaFlightReservation.moveAssign {}
      (CanadaFlightReservation.mk2 { adults := 3 } { price := 200 })).getCost = 0 ∧
    (TurkishFlightReservation.moveCtor {}
      (TurkishFlightReservation.mk2 { adults := 3 } { price := 200 })).getCost = 0 := by
  refine ⟨fun junk o1 o2 => rfl, fun this other => rfl, fun junk o1 o2 => rfl,
    ?_, ?_, ?_, ?_⟩
  · simp [CanadaFlightReservation.mk2, CanadaFlightReservation.getCost,
      CanadaFlightReservation.setCustomerInfo, CanadaFlightReservation.setChosenFlight]
    norm_num
  · simp [CanadaFlightReservation.moveCtor, CanadaFlightReservation.getCost]
  · simp [CanadaFlightReservation.moveAssign, CanadaFlightReservation.getCost]
  · simp [TurkishFlightReservation.moveCtor, TurkishFlightReservation.getCost]

/-- C8 (code bug): Itinerary copy assignment (Itinerary.cpp, lines 27-33)
appends clones of the source's elements WITHOUT clearing the destination
first, so assigning an itinerary holding one 1800-cost reservation onto an
itinerary holding one 600-cost reservation leaves 2 elements of total cost
2400, not a copy of the source (1 element, cost 1800). -/
theorem claim_C8_copy_assign_appends_without_clearing :
    Itinerary.copyAssign
        [Reservation.canada (CanadaFlightReservation.mk2 { adults := 3 } { price := 200 })]
        [Reservation.hilton (HiltonHotelReservation.mk2
          { needed_rooms := 2, number_of_nights := 3 } { price_for_night := 300 })] =
      [Reservation.canada (CanadaFlightReservation.mk2 { adults := 3 } { price := 200 }),
       Reservation.hilton (HiltonHotelReservation.mk2
          { needed_rooms := 2, number_of_nights := 3 } { price_for_night := 300 })] ∧
    (Itinerary.copyAssign
        [Reservation.canada (CanadaFlightReservation.mk2 { adults := 3 } { price := 200 })]
        [Reservation.hilton (HiltonHotelReservation.mk2
          { needed_rooms := 2, number_of_nights := 3 } { price_for_night := 300 })]).length = 2 ∧
    Reservation.getCost (.itinerary (Itinerary.copyAssign
        [Reservation.canada (CanadaFlightReservation.mk2 { adults := 3 } { price := 200 })]
        [Reservation.hilton (HiltonHotelReservation.mk2
          { needed_rooms := 2, number_of_nights := 3 } { price_for_night := 300 })])) = 2400 ∧
    Reservation.getCost (.itinerary
        [Reservation.hilton (HiltonHotelReservation.mk2
          { needed_rooms := 2, number_of_nights := 3 } { price_for_night := 300 })]) = 1800 := by
  have hca : Itinerary.copyAssign
      [Reservation.canada (CanadaFlightReservation.mk2 { adults := 3 } { price := 200 })]
      [Reservation.hilton (HiltonHotelReservation.mk2
        { needed_rooms := 2, number_of_nights := 3 } { price_for_night := 300 })] =
      [Reservation.canada (CanadaFlightReservation.mk2 { adults := 3 } { price := 200 }),
       Reservation.hilton (HiltonHotelReservation.mk2
        { needed_rooms := 2, number_of_nights := 3 } { price_for_night := 300 })] := by
    rw [Itinerary.copyAssign, Itinerary.foldl_addReservation, Reservation.cloneList_eq]
    rfl
  refine ⟨hca, by rw [hca]; rfl, ?_, ?_⟩
  · rw [hca]
    simp [Reservation.getCost, Reservation.costList, CanadaFlightReservation.getCost,
      HiltonHotelReservation.getCost, CanadaFlightReservation.mk2,
      HiltonHotelReservation.mk2, CanadaFlightReservation.setCustomerInfo,
      CanadaFlightReservation.setChosenFlight, HiltonHotelReservation.setCustomerInfo,
      HiltonHotelReservation.setChosenRoomInfo]
    norm_num
  · simp [Reservation.getCost, Reservation.costList, HiltonHotelReservation.getCost,
      HiltonHotelReservation.mk2, HiltonHotelReservation.setCustomerInfo,
      HiltonHotelReservation.setChosenRoomInfo]
    norm_num

/-- One heap cell of the ownership model: the state of one heap-allocated
Reservation object.  An itin cell holds the addresses of the Reservation
objects its vector of unique_ptr elements points to. -/
inductive Node where
  | canada (r : CanadaFlightReservation)
  | turkish (r : TurkishFlightReservation)
  | hilton (r : HiltonHotelReservation)
  | marriott (r : MarriottHotelReservation)
  | itin (children : List Nat)
deriving DecidableEq

/-- A store of reservation objects; a cell's address is its index, and new
objects are allocated by appending at the end. -/
abbrev Store := List Node

/-- A cell is well formed when all its children were allocated before it;
the stores the program builds satisfy this, because a child reservation is
always allocated before the itinerary cell that points to it. -/
def nodeWf (a : Nat) : Node → Bool
  | .itin cs => cs.all (fun c => decide (c < a))
  | _ => true

/-- Every allocated cell of the store is well formed. -/
def storeWf (s : Store) : Bool :=
  (List.range (List.length s)).all (fun a =>
    match List.get? s a with
    | some node => nodeWf a node
    | none => true)

/-- Reads the children of an itinerary cell with the given single-cell
reader, failing if any child read fails. -/
def readChildren (readOne : Nat → Option Reservation) :
    List Nat → Option (List Reservation)
  | [] => some []
  | c :: cs =>
    match readOne c, readChildren readOne cs with
    | some r, some rs => some (r :: rs)
    | _, _ => none

/-- Reads the Reservation value rooted at address a, dereferencing child
pointers recursively; fuel bounds the depth (on a well-formed store fuel
a + 1 always suffices, children having smaller addresses).  Dereferencing
an unallocated address yields none. -/
def readF : Nat → Store → Nat → Option Reservation
  | 0, _, _ => none
  | fuel+1, s, a =>
    match List.get? s a with
    | none => none
    | some (.canada r) => some (.canada r)
    | some (.turkish r) => some (.turkish r)
    | some (.hilton r) => some (.hilton r)
    | some (.marriott r) => some (.marriott r)
    | some (.itin cs) => (readChildren (readF fuel s) cs).map .itinerary

/-- Clones the children of an itinerary cell in order with the given
single-cell cloner, threading the growing store through the loop. -/
def cloneChildren (cloneOne : Store → Nat → Option (Store × Nat)) :
    Store → List Nat → Option (Store × List Nat)
  | s, [] => some (s, [])
  | s, c :: cs =>
    match cloneOne s c with
    | none => none
    | some (s1, c1) =>
      match cloneChildren cloneOne s1 cs with
      | none => none
      | some (s2, cs2) => some (s2, c1 :: cs2)

/-- clone() in the store model: an adapter clone allocates one new cell
holding a copy-constructed adapter (e.g. Airports.cpp, lines 103-105);
Itinerary::clone (Itinerary.cpp, lines 61-63, through the copy constructor
of lines 18-21) first allocates clones of every child in order, then
allocates the new itinerary cell pointing at the fresh clones. -/
def cloneF : Nat → Store → Nat → Option (Store × Nat)
  | 0, _, _ => none
  | fuel+1, s, a =>
    match List.get? s a with
    | none => none
    | some (.canada r) => some (s ++ [.canada r.copyCtor], List.length s)
    | some (.turkish r) => some (s ++ [.turkish r.copyCtor], List.length s)
    | some (.hilton r) => some (s ++ [.hilton r.copyCtor], List.length s)
    | some (.marriott r) => some (s ++ [.marriott r.copyCtor], List.length s)
    | some (.itin cs) =>
      match cloneChildren (cloneF fuel) s cs with
      | none => none
      | some (s1, cs1) => some (s1 ++ [.itin cs1], List.length s1)

/-- Collects the reach of each child address. -/
def reachChildren (reachOne : Nat → List Nat) : List Nat → List Nat
  | [] => []
  | c :: cs => reachOne c ++ reachChildren reachOne cs

/-- The addresses of all cells owned by (reachable from) the object at a,
itself included. -/
def reachF : Nat → Store → Nat → List Nat
  | 0, _, _ => []
  | fuel+1, s, a =>
    a :: (match List.get? s a with
      | some (.itin cs) => reachChildren (reachF fuel s) cs
      | _ => [])

/-- getCost() invoked on the object at address a: dereference the object
graph, then compute the virtual cost. -/
def getCostAt (fuel : Nat) (s : Store) (a : Nat) : Option Rat :=
  (readF fuel s a).map Reservation.getCost

/-- getDetails() invoked on the object at address a. -/
def getDetailsAt (fuel : Nat) (s : Store) (a : Nat) : Option (List Token) :=
  (readF fuel s a).map Reservation.getDetails

/-- Itinerary::addReservation (Itinerary.cpp, lines 41-43) in the store
model: clone the argument object at address a, then push the fresh clone's
address onto the vector of the itinerary cell at address t. -/
def addReservationS (fuel : Nat) (s : Store) (t a : Nat) : Option Store :=
  match List.get? s t with
  | some (.itin cs) =>
    match cloneF fuel s a with
    | some (s1, a1) => some (List.set s1 t (.itin (cs ++ [a1])))
    | none => none
  | _ => none

/-- Pointwise equal readers read the same children. -/
theorem readChildren_congr (f g : Nat → Option Reservation) :
    ∀ cs : List Nat, (∀ c ∈ cs, f c = g c) →
      readChildren f cs = readChildren g cs := by
  intro cs
  induction cs with
  | nil => intro _; rfl
  | cons c cs ih =>
      intro h
      simp only [readChildren]
      rw [h c (List.mem_cons_self c cs),
        ih (fun x hx => h x (List.mem_cons_of_mem c hx))]

/-- Appending one more child to a successful children read. -/
theorem readChildren_append (f : Nat → Option Reservation) :
    ∀ (cs : List Nat) (rs : List Reservation) (y : Nat) (r : Reservation),
      readChildren f cs = some rs → f y = some r →
      readChildren f (cs ++ [y]) = some (rs ++ [r]) := by
  intro cs
  induction cs with
  | nil =>
      intro rs y r h hy
      simp only [readChildren] at h
      cases h
      simp only [List.nil_append, readChildren, hy]
  | cons c cs ih =>
      intro rs y r h hy
      simp only [readChildren] at h
      rcases hfc : f c with _ | r0 <;> rw [hfc] at h
      · simp at h
      · rcases hrest : readChildren f cs with _ | rs0 <;> rw [hrest] at h
        · simp at h
        · simp only [Option.some.injEq] at h
          subst h
          rw [List.cons_append]
          simp only [readChildren]
          rw [hfc, ih rs0 y r hrest hy]
          rfl

/-- An address reached through one child is reached through the child list. -/
theorem reachChildren_mem (reachOne : Nat → List Nat) :
    ∀ (cs : List Nat) (c : Nat), c ∈ cs →
      ∀ x ∈ reachOne c, x ∈ reachChildren reachOne cs := by
  intro cs
  induction cs with
  | nil => intro c hc; simp at hc
  | cons c0 cs ih =>
      intro c hc x hx
      simp only [reachChildren, List.mem_append]
      rcases List.mem_cons.mp hc with rfl | hc2
      · exact Or.inl hx
      · exact Or.inr (ih c hc2 x hx)

/-- An address in the collected reaches comes from some child. -/
theorem reachChildren_mem_inv (reachOne : Nat → List Nat) :
    ∀ (cs : List Nat) (x : Nat), x ∈ reachChildren reachOne cs →
      ∃ c ∈ cs, x ∈ reachOne c := by
  intro cs
  induction cs with
  | nil => intro x hx; simp [reachChildren] at hx
  | cons c0 cs ih =>
      intro x hx
      simp only [reachChildren, List.mem_append] at hx
      rcases hx with hx | hx
      · exact ⟨c0, List.mem_cons_self c0 cs, hx⟩
      · obtain ⟨c, hc, hxc⟩ := ih x hx
        exact ⟨c, List.mem_cons_of_mem c0 hc, hxc⟩

/-- A successful read implies the root address is allocated. -/
theorem readF_some_lt {fuel : Nat} {s : Store} {a : Nat} {r : Reservation}
    (h : readF fuel s a = some r) : a < List.length s := by
  cases fuel with
  | zero => simp [readF] at h
  | succ fuel =>
      by_contra hge
      have hnone : List.get? s a = none :=
        List.get?_eq_none.mpr (Nat.le_of_not_lt hge)
      rw [readF, hnone] at h
      simp at h

/-- Frame property: changing cells outside the reach of a does not change
what is read at a. -/
theorem readF_frame : ∀ (fuel : Nat) (s t : Store) (a : Nat),
    (∀ b ∈ reachF fuel s a, List.get? t b = List.get? s b) →
    readF fuel t a = readF fuel s a := by
  intro fuel
  induction fuel with
  | zero => intro s t a _; rfl
  | succ fuel ih =>
      intro s t a h
      have ha : List.get? t a = List.get? s a :=
        h a (by simp [reachF])
      rw [readF, readF, ha]
      rcases hget : List.get? s a with _ | node
      · rfl
      · cases node with
        | canada r => rfl
        | turkish r => rfl
        | hilton r => rfl
        | marriott r => rfl
        | itin cs =>
            have hcs : readChildren (readF fuel t) cs =
                readChildren (readF fuel s) cs := by
              apply readChildren_congr
              intro c hc
              apply ih
              intro b hb
              apply h
              simp only [reachF, hget]
              exact List.mem_cons_of_mem a (reachChildren_mem _ cs c hc b hb)
            show Option.map Reservation.itinerary (readChildren (readF fuel t) cs) =
              Option.map Reservation.itinerary (readChildren (readF fuel s) cs)
            rw [hcs]

/-- On a well-formed store the children of an itinerary cell have smaller
addresses. -/
theorem storeWf_children {s : Store} (hwf : storeWf s = true) {a : Nat}
    {cs : List Nat} (ha : List.get? s a = some (.itin cs)) :
    ∀ c ∈ cs, c < a := by
  intro c hc
  obtain ⟨hlen, -⟩ := List.get?_eq_some.mp ha
  simp only [storeWf, List.all_eq_true, List.mem_range] at hwf
  have h2 := hwf a hlen
  rw [ha] at h2
  simp only [nodeWf, List.all_eq_true] at h2
  exact of_decide_eq_true (h2 c hc)

/-- On a well-formed store every reached address is at most the root. -/
theorem reachF_le {s : Store} (hwf : storeWf s = true) :
    ∀ (fuel a : Nat), ∀ b ∈ reachF fuel s a, b ≤ a := by
  intro fuel
  induction fuel with
  | zero => intro a b hb; simp [reachF] at hb
  | succ fuel ih =>
      intro a b hb
      simp only [reachF] at hb
      rcases List.mem_cons.mp hb with rfl | hb2
      · exact le_refl b
      · rcases hget : List.get? s a with _ | node <;> rw [hget] at hb2
        · simp at hb2
        · cases node with
          | canada r => simp at hb2
          | turkish r => simp at hb2
          | hilton r => simp at hb2
          | marriott r => simp at hb2
          | itin cs =>
              simp only at hb2
              obtain ⟨c, hc, hbc⟩ := reachChildren_mem_inv _ cs b hb2
              exact le_trans (ih c b hbc)
                (le_of_lt (storeWf_children hwf hget c hc))

/-- Corollary frame property: on a well-formed store, agreement on all
cells up to the root address preserves the read. -/
theorem readF_frame_le {s : Store} (hwf : storeWf s = true) (fuel : Nat)
    (t : Store) (a : Nat)
    (h : ∀ b, b ≤ a → List.get? t b = List.get? s b) :
    readF fuel t a = readF fuel s a :=
  readF_frame fuel s t a (fun b hb => h b (reachF_le hwf fuel a b hb))

/-- Allocating one well-formed cell preserves store well-formedness. -/
theorem storeWf_append {s : Store} {n : Node} (hwf : storeWf s = true)
    (hn : nodeWf (List.length s) n = true) : storeWf (s ++ [n]) = true := by
  simp only [storeWf, List.all_eq_true, List.mem_range] at hwf ⊢
  intro a ha
  rw [List.length_append, List.length_singleton] at ha
  rcases Nat.lt_succ_iff_lt_or_eq.mp ha with hlt | rfl
  · rw [List.get?_append hlt]
    exact hwf a hlt
  · rw [List.get?_concat_length]
    exact hn

/-- Every child of a successful children read was itself read successfully. -/
theorem readChildren_some_mem (f : Nat → Option Reservation) :
    ∀ (cs : List Nat) (rs : List Reservation),
      readChildren f cs = some rs → ∀ c ∈ cs, ∃ r, f c = some r := by
  intro cs
  induction cs with
  | nil => intro rs _ c hc; simp at hc
  | cons c0 cs ih =>
      intro rs h c hc
      simp only [readChildren] at h
      rcases hfc : f c0 with _ | r0 <;> rw [hfc] at h
      · simp at h
      · rcases hrest : readChildren f cs with _ | rs0 <;> rw [hrest] at h
        · simp at h
        · rcases List.mem_cons.mp hc with rfl | hc2
          · exact ⟨r0, hfc⟩
          · exact ih rs0 hrest c hc2

/-- A store extension agrees with the base store on allocated cells. -/
theorem get?_of_prefix {s s2 : Store} (h : ∃ δ, s2 = s ++ δ) {b : Nat}
    (hb : b < List.length s) : List.get? s2 b = List.get? s b := by
  obtain ⟨δ, rfl⟩ := h
  exact List.get?_append hb

/-- Cloning a list of children of a well-formed store: the computation
succeeds, only appends fresh cells, keeps the store well formed, returns
addresses inside the fresh block, and the fresh clones read back the
original values in any store agreeing with the result on the fresh block. -/
theorem cloneChildren_spec (fuel : Nat)
    (ih : ∀ (s : Store) (a : Nat) (r : Reservation), storeWf s = true →
      readF fuel s a = some r →
      ∃ s2 a1, cloneF fuel s a = some (s2, a1) ∧
        (∃ δ, s2 = s ++ δ) ∧
        List.length s ≤ a1 ∧ a1 + 1 = List.length s2 ∧
        storeWf s2 = true ∧
        (∀ t : Store,
          (∀ b, List.length s ≤ b → b ≤ a1 →
            List.get? t b = List.get? s2 b) →
          readF fuel t a1 = some r)) :
    ∀ (cs : List Nat) (s : Store) (rs : List Reservation),
      storeWf s = true →
      readChildren (readF fuel s) cs = some rs →
      ∃ s2 cs1, cloneChildren (cloneF fuel) s cs = some (s2, cs1) ∧
        (∃ δ, s2 = s ++ δ) ∧
        List.length s ≤ List.length s2 ∧
        storeWf s2 = true ∧
        (∀ c1 ∈ cs1, List.length s ≤ c1 ∧ c1 < List.length s2) ∧
        (∀ t : Store,
          (∀ b, List.length s ≤ b → b < List.length s2 →
            List.get? t b = List.get? s2 b) →
          readChildren (readF fuel t) cs1 = some rs) := by
  intro cs
  induction cs with
  | nil =>
      intro s rs hwf hread
      simp only [readChildren] at hread
      cases hread
      refine ⟨s, [], rfl, ⟨[], by simp⟩, le_refl _, hwf, ?_, ?_⟩
      · intro c1 hc1; simp at hc1
      · intro t _; rfl
  | cons c cs ihl =>
      intro s rs hwf hread
      simp only [readChildren] at hread
      rcases hfc : readF fuel s c with _ | r0 <;> rw [hfc] at hread
      · simp at hread
      · rcases hrest : readChildren (readF fuel s) cs with _ | rs0 <;>
          rw [hrest] at hread
        · simp at hread
        · simp only [Option.some.injEq] at hread
          subst hread
          obtain ⟨s1, c1, hclone0, hpre0, hc1ge, hc1len, hwf0, hframe0⟩ :=
            ih s c r0 hwf hfc
          have hlen01 : List.length s ≤ List.length s1 := by
            obtain ⟨δ0, rfl⟩ := hpre0
            simp [List.length_append]
          have hrest1 : readChildren (readF fuel s1) cs = some rs0 := by
            rw [readChildren_congr (readF fuel s1) (readF fuel s) cs ?_]
            · exact hrest
            · intro c' hc'
              obtain ⟨r', hr'⟩ := readChildren_some_mem _ cs rs0 hrest c' hc'
              have hc'lt : c' < List.length s := readF_some_lt hr'
              apply readF_frame_le hwf
              intro b hb
              exact get?_of_prefix hpre0 (lt_of_le_of_lt hb hc'lt)
          obtain ⟨s2, cs1, hclone1, hpre1, hlen12, hwf1, hbounds1, hframe1⟩ :=
            ihl s1 rs0 hwf0 hrest1
          have hc1lt2 : c1 < List.length s2 := by omega
          refine ⟨s2, c1 :: cs1, ?_, ?_, by omega, hwf1, ?_, ?_⟩
          · simp only [cloneChildren, hclone0, hclone1]
          · obtain ⟨δ0, h0⟩ := hpre0
            obtain ⟨δ1, h1⟩ := hpre1
            exact ⟨δ0 ++ δ1, by rw [h1, h0, List.append_assoc]⟩
          · intro x hx
            rcases List.mem_cons.mp hx with rfl | hx2
            · exact ⟨hc1ge, hc1lt2⟩
            · obtain ⟨h1, h2⟩ := hbounds1 x hx2
              exact ⟨le_trans hlen01 h1, h2⟩
          · intro t ht
            have h1 : readF fuel t c1 = some r0 := by
              apply hframe0
              intro b hbge hble
              have hblt2 : b < List.length s2 := by omega
              rw [ht b hbge hblt2]
              exact get?_of_prefix hpre1 (by omega)
            have h2 : readChildren (readF fuel t) cs1 = some rs0 := by
              apply hframe1
              intro b hbge hblt
              exact ht b (le_trans hlen01 hbge) hblt
            simp only [readChildren]
            rw [h1, h2]

/-- Cloning the object rooted at a well-formed store address succeeds,
allocates only fresh cells (the clone's root being the last one), keeps
the store well formed, and the clone reads back the original's value in any
store that agrees with the result on the fresh block. -/
theorem cloneF_spec :
    ∀ (fuel : Nat) (s : Store) (a : Nat) (r : Reservation),
      storeWf s = true → readF fuel s a = some r →
      ∃ s2 a1, cloneF fuel s a = some (s2, a1) ∧
        (∃ δ, s2 = s ++ δ) ∧
        List.length s ≤ a1 ∧ a1 + 1 = List.length s2 ∧
        storeWf s2 = true ∧
        (∀ t : Store,
          (∀ b, List.length s ≤ b → b ≤ a1 →
            List.get? t b = List.get? s2 b) →
          readF fuel t a1 = some r) := by
  intro fuel
  induction fuel with
  | zero => intro s a r _ hread; simp [readF] at hread
  | succ fuel ih =>
      intro s a r hwf hread
      rw [readF] at hread
      rcases hget : List.get? s a with _ | node <;> rw [hget] at hread
      · simp at hread
      · cases node with
        | canada r0 =>
            simp only [Option.some.injEq] at hread
            subst hread
            refine ⟨s ++ [.canada r0.copyCtor], List.length s, ?_, ⟨_, rfl⟩,
              le_refl _, by simp, storeWf_append hwf (by rfl), ?_⟩
            · rw [cloneF, hget]
            · intro t ht
              have hta : List.get? t (List.length s) =
                  some (.canada r0.copyCtor) := by
                rw [ht (List.length s) (le_refl _) (le_refl _)]
                exact List.get?_concat_length s _
              rw [readF, hta]
              rfl
        | turkish r0 =>
            simp only [Option.some.injEq] at hread
            subst hread
            refine ⟨s ++ [.turkish r0.copyCtor], List.length s, ?_, ⟨_, rfl⟩,
              le_refl _, by simp, storeWf_append hwf (by rfl), ?_⟩
            · rw [cloneF, hget]
            · intro t ht
              have hta : List.get? t (List.length s) =
                  some (.turkish r0.copyCtor) := by
                rw [ht (List.length s) (le_refl _) (le_refl _)]
                exact List.get?_concat_length s _
              rw [readF, hta]
              rfl
        | hilton r0 =>
            simp only [Option.some.injEq] at hread
            subst hread
            refine ⟨s ++ [.hilton r0.copyCtor], List.length s, ?_, ⟨_, rfl⟩,
              le_refl _, by simp, storeWf_append hwf (by rfl), ?_⟩
            · rw [cloneF, hget]
            · intro t ht
              have hta : List.get? t (List.length s) =
                  some (.hilton r0.copyCtor) := by
                rw [ht (List.length s) (le_refl _) (le_refl _)]
                exact List.get?_concat_length s _
              rw [readF, hta]
              rfl
        | marriott r0 =>
            simp only [Option.some.injEq] at hread
            subst hread
            refine ⟨s ++ [.marriott r0.copyCtor], List.length s, ?_, ⟨_, rfl⟩,
              le_refl _, by simp, storeWf_append hwf (by rfl), ?_⟩
            · rw [cloneF, hget]
            · intro t ht
              have hta : List.get? t (List.length s) =
                  some (.marriott r0.copyCtor) := by
                rw [ht (List.length s) (le_refl _) (le_refl _)]
                exact List.get?_concat_length s _
              rw [readF, hta]
              rfl
        | itin cs =>
            obtain ⟨rs, hchildren, rfl⟩ := Option.map_eq_some'.mp hread
            obtain ⟨s1, cs1, hclonec, hpre, hlen, hwfc, hbounds, hframec⟩ :=
              cloneChildren_spec fuel ih cs s rs hwf hchildren
            have hwf2 : storeWf (s1 ++ [.itin cs1]) = true := by
              apply storeWf_append hwfc
              simp only [nodeWf, List.all_eq_true]
              intro c1 hc1
              exact decide_eq_true (hbounds c1 hc1).2
            refine ⟨s1 ++ [.itin cs1], List.length s1, ?_, ?_, hlen,
              by simp, hwf2, ?_⟩
            · simp only [cloneF, hget, hclonec]
            · obtain ⟨δ, h0⟩ := hpre
              exact ⟨δ ++ [.itin cs1], by rw [h0, List.append_assoc]⟩
            · intro t ht
              have hta : List.get? t (List.length s1) = some (.itin cs1) := by
                rw [ht (List.length s1) hlen (le_refl _)]
                exact List.get?_concat_length s1 _
              rw [readF, hta]
              have hcs : readChildren (readF fuel t) cs1 = some rs := by
                apply hframec
                intro b hbge hblt
                rw [ht b hbge (by omega)]
                exact List.get?_append hblt
              show Option.map Reservation.itinerary
                  (readChildren (readF fuel t) cs1) =
                some (Reservation.itinerary rs)
              rw [hcs]
              rfl

/-- C5: clone() returns an object with the same getCost() and identical
getDetails output, built entirely from freshly allocated cells (a deep,
independent copy): the original's cells are untouched by cloning, mutating
any cell of the clone's fresh region leaves the original's observable
state unchanged, and mutating any cell of the original region leaves the
clone's observable state unchanged (no shared ownership).  This holds for
every readable object of a well-formed store, hence for each of the four
adapters and for arbitrarily nested Itineraries. -/
theorem claim_C5_clone_deep_independent_copy (fuel : Nat) (s : Store)
    (a : Nat) (r : Reservation) (hwf : storeWf s = true)
    (hread : readF fuel s a = some r) :
    ∃ s2 a1, cloneF fuel s a = some (s2, a1) ∧
      (∃ δ, s2 = s ++ δ) ∧
      List.length s ≤ a1 ∧
      getCostAt fuel s2 a1 = getCostAt fuel s a ∧
      getDetailsAt fuel s2 a1 = getDetailsAt fuel s a ∧
      (∀ b node, List.length s ≤ b →
        getCostAt fuel (List.set s2 b node) a = getCostAt fuel s a ∧
        getDetailsAt fuel (List.set s2 b node) a = getDetailsAt fuel s a) ∧
      (∀ b node, b < List.length s →
        getCostAt fuel (List.set s2 b node) a1 = getCostAt fuel s2 a1 ∧
        getDetailsAt fuel (List.set s2 b node) a1 = getDetailsAt fuel s2 a1) := by
  obtain ⟨s2, a1, hclone, hpre, ha1ge, ha1len, hwf2, hframe⟩ :=
    cloneF_spec fuel s a r hwf hread
  have halt : a < List.length s := readF_some_lt hread
  have hr2 : readF fuel s2 a1 = some r := hframe s2 (fun b _ _ => rfl)
  refine ⟨s2, a1, hclone, hpre, ha1ge, ?_, ?_, ?_, ?_⟩
  · rw [getCostAt, getCostAt, hr2, hread]
  · rw [getDetailsAt, getDetailsAt, hr2, hread]
  · intro b node hbge
    have hmut : readF fuel (List.set s2 b node) a = readF fuel s a := by
      apply readF_frame_le hwf
      intro b' hb'
      have hb'lt : b' < List.length s := lt_of_le_of_lt hb' halt
      rw [List.get?_set_ne node s2 (by omega)]
      exact get?_of_prefix hpre hb'lt
    exact ⟨by rw [getCostAt, getCostAt, hmut],
      by rw [getDetailsAt, getDetailsAt, hmut]⟩
  · intro b node hblt
    have hmut : readF fuel (List.set s2 b node) a1 = some r := by
      apply hframe
      intro b' hb'ge _
      exact List.get?_set_ne node s2 (by omega)
    exact ⟨by rw [getCostAt, getCostAt, hmut, hr2],
      by rw [getDetailsAt, getDetailsAt, hmut, hr2]⟩

/-- Witness for C5 at a concrete well-formed store: an itinerary at
address 2 owning a Canada flight (cost 600) at address 0 and a Hilton
room at address 1. -/
theorem claim_C5_witness :
    storeWf [Node.canada (CanadaFlightReservation.mk2 { adults := 3 } { price := 200 }),
      Node.hilton (HiltonHotelReservation.mk2 { number_of_nights := 3 }
        { price_for_night := 300 }),
      Node.itin [0, 1]] = true ∧
    readF 3 [Node.canada (CanadaFlightReservation.mk2 { adults := 3 } { price := 200 }),
      Node.hilton (HiltonHotelReservation.mk2 { number_of_nights := 3 }
        { price_for_night := 300 }),
      Node.itin [0, 1]] 2 =
      some (.itinerary
        [.canada (CanadaFlightReservation.mk2 { adults := 3 } { price := 200 }),
         .hilton (HiltonHotelReservation.mk2 { number_of_nights := 3 }
           { price_for_night := 300 })]) ∧
    (∃ s2 a1, cloneF 3 [Node.canada (CanadaFlightReservation.mk2 { adults := 3 } { price := 200 }),
        Node.hilton (HiltonHotelReservation.mk2 { number_of_nights := 3 }
          { price_for_night := 300 }),
        Node.itin [0, 1]] 2 = some (s2, a1) ∧
      (∃ δ, s2 = [Node.canada (CanadaFlightReservation.mk2 { adults := 3 } { price := 200 }),
        Node.hilton (HiltonHotelReservation.mk2 { number_of_nights := 3 }
          { price_for_night := 300 }),
        Node.itin [0, 1]] ++ δ) ∧
      List.length [Node.canada (CanadaFlightReservation.mk2 { adults := 3 } { price := 200 }),
        Node.hilton (HiltonHotelReservation.mk2 { number_of_nights := 3 }
          { price_for_night := 300 }),
        Node.itin [0, 1]] ≤ a1 ∧
      getCostAt 3 s2 a1 =
        getCostAt 3 [Node.canada (CanadaFlightReservation.mk2 { adults := 3 } { price := 200 }),
          Node.hilton (HiltonHotelReservation.mk2 { number_of_nights := 3 }
            { price_for_night := 300 }),
          Node.itin [0, 1]] 2 ∧
      getDetailsAt 3 s2 a1 =
        getDetailsAt 3 [Node.canada (CanadaFlightReservation.mk2 { adults := 3 } { price := 200 }),
          Node.hilton (HiltonHotelReservation.mk2 { number_of_nights := 3 }
            { price_for_night := 300 }),
          Node.itin [0, 1]] 2 ∧
      (∀ b node, List.length [Node.canada (CanadaFlightReservation.mk2 { adults := 3 } { price := 200 }),
          Node.hilton (HiltonHotelReservation.mk2 { number_of_nights := 3 }
            { price_for_night := 300 }),
          Node.itin [0, 1]] ≤ b →
        getCostAt 3 (List.set s2 b node) 2 =
          getCostAt 3 [Node.canada (CanadaFlightReservation.mk2 { adults := 3 } { price := 200 }),
            Node.hilton (HiltonHotelReservation.mk2 { number_of_nights := 3 }
              { price_for_night := 300 }),
            Node.itin [0, 1]] 2 ∧
        getDetailsAt 3 (List.set s2 b node) 2 =
          getDetailsAt 3 [Node.canada (CanadaFlightReservation.mk2 { adults := 3 } { price := 200 }),
            Node.hilton (HiltonHotelReservation.mk2 { number_of_nights := 3 }
              { price_for_night := 300 }),
            Node.itin [0, 1]] 2) ∧
      (∀ b node, b < List.length [Node.canada (CanadaFlightReservation.mk2 { adults := 3 } { price := 200 }),
          Node.hilton (HiltonHotelReservation.mk2 { number_of_nights := 3 }
            { price_for_night := 300 }),
          Node.itin [0, 1]] →
        getCostAt 3 (List.set s2 b node) a1 = getCostAt 3 s2 a1 ∧
        getDetailsAt 3 (List.set s2 b node) a1 = getDetailsAt 3 s2 a1)) :=
  ⟨by decide, rfl,
    claim_C5_clone_deep_independent_copy 3 _ 2 _ (by decide) rfl⟩

/-- C6: addReservation appends a freshly allocated clone of the item, never
the item itself (the new address is outside the old store, in particular
different from the item's), the itinerary afterwards reads its old children
followed by the item's value, and mutating (or destroying, i.e. overwriting)
any old cell outside the itinerary's reach - in particular every cell of the
item, which exclusive ownership keeps outside that reach - leaves the
itinerary's getCost and getDetails unchanged. -/
theorem claim_C6_addReservation_appends_exclusive_clone (fuel : Nat)
    (s : Store) (t a : Nat) (cs : List Nat) (rs : List Reservation)
    (r : Reservation) (hwf : storeWf s = true)
    (ht : List.get? s t = some (.itin cs))
    (hchildren : readChildren (readF fuel s) cs = some rs)
    (hitem : readF fuel s a = some r) :
    ∃ s2 a1, cloneF fuel s a = some (s2, a1) ∧
      addReservationS fuel s t a =
        some (List.set s2 t (.itin (cs ++ [a1]))) ∧
      List.length s ≤ a1 ∧ a ≠ a1 ∧
      readF (fuel + 1) (List.set s2 t (.itin (cs ++ [a1]))) t =
        some (.itinerary (rs ++ [r])) ∧
      (∀ b node, b < List.length s → b ∉ reachF (fuel + 1) s t →
        readF (fuel + 1)
            (List.set (List.set s2 t (.itin (cs ++ [a1]))) b node) t =
          some (.itinerary (rs ++ [r])) ∧
        getCostAt (fuel + 1)
            (List.set (List.set s2 t (.itin (cs ++ [a1]))) b node) t =
          getCostAt (fuel + 1) (List.set s2 t (.itin (cs ++ [a1]))) t ∧
        getDetailsAt (fuel + 1)
            (List.set (List.set s2 t (.itin (cs ++ [a1]))) b node) t =
          getDetailsAt (fuel + 1) (List.set s2 t (.itin (cs ++ [a1]))) t) := by
  obtain ⟨s2, a1, hclone, hpre, ha1ge, ha1len, hwf2, hframe⟩ :=
    cloneF_spec fuel s a r hwf hitem
  obtain ⟨htlt, -⟩ := List.get?_eq_some.mp ht
  have halt : a < List.length s := readF_some_lt hitem
  have hlen2 : List.length s ≤ List.length s2 := by
    obtain ⟨δ, rfl⟩ := hpre
    simp [List.length_append]
  have hclt : ∀ c ∈ cs, c < t := storeWf_children hwf ht
  have step : ∀ u : Store,
      List.get? u t = some (.itin (cs ++ [a1])) →
      (∀ c ∈ cs, readF fuel u c = readF fuel s c) →
      readF fuel u a1 = some r →
      readF (fuel + 1) u t = some (.itinerary (rs ++ [r])) := by
    intro u h1 h2 h3
    rw [readF, h1]
    have hold : readChildren (readF fuel u) cs = some rs := by
      rw [readChildren_congr (readF fuel u) (readF fuel s) cs h2]
      exact hchildren
    have happ := readChildren_append (readF fuel u) cs rs a1 r hold h3
    show Option.map Reservation.itinerary
        (readChildren (readF fuel u) (cs ++ [a1])) =
      some (Reservation.itinerary (rs ++ [r]))
    rw [happ]
    rfl
  have hread1 : readF (fuel + 1) (List.set s2 t (.itin (cs ++ [a1]))) t =
      some (.itinerary (rs ++ [r])) := by
    apply step
    · exact List.get?_set_eq_of_lt _ (lt_of_lt_of_le htlt hlen2)
    · intro c hc
      apply readF_frame_le hwf
      intro b hb
      have hblt : b < t := lt_of_le_of_lt hb (hclt c hc)
      rw [List.get?_set_ne _ s2 (by omega)]
      exact get?_of_prefix hpre (by omega)
    · apply hframe
      intro b hbge hble
      exact List.get?_set_ne _ s2 (by omega)
  refine ⟨s2, a1, hclone, by simp only [addReservationS, ht, hclone],
    ha1ge, by omega, hread1, ?_⟩
  intro b node hblt hnr
  have hnr2 : b ≠ t ∧ ∀ c ∈ cs, b ∉ reachF fuel s c := by
    simp only [reachF, ht] at hnr
    rw [List.mem_cons] at hnr
    push_neg at hnr
    exact ⟨hnr.1, fun c hc hmem =>
      hnr.2 (reachChildren_mem (reachF fuel s) cs c hc b hmem)⟩
  have hread2 : readF (fuel + 1)
      (List.set (List.set s2 t (.itin (cs ++ [a1]))) b node) t =
      some (.itinerary (rs ++ [r])) := by
    apply step
    · rw [List.get?_set_ne node _ hnr2.1]
      exact List.get?_set_eq_of_lt _ (lt_of_lt_of_le htlt hlen2)
    · intro c hc
      apply readF_frame
      intro b' hb'
      have hb'le : b' ≤ c := reachF_le hwf fuel c b' hb'
      have hb'lt : b' < t := lt_of_le_of_lt hb'le (hclt c hc)
      have hb'b : b' ≠ b := fun h => hnr2.2 c hc (h ▸ hb')
      rw [List.get?_set_ne node _ (fun h => hb'b h.symm),
        List.get?_set_ne _ s2 (by omega)]
      exact get?_of_prefix hpre (by omega)
    · apply hframe
      intro b' hb'ge hb'le
      rw [List.get?_set_ne node _ (by omega),
        List.get?_set_ne _ s2 (by omega)]
  refine ⟨hread2, ?_, ?_⟩
  · rw [getCostAt, getCostAt, hread1, hread2]
  · rw [getDetailsAt, getDetailsAt, hread1, hread2]

/-- Witness for C6: an empty itinerary at address 1 receives a clone of the
Canada flight reservation at address 0. -/
theorem claim_C6_witness :
    storeWf [Node.canada (CanadaFlightReservation.mk2 { adults := 3 } { price := 200 }),
      Node.itin []] = true ∧
    List.get? [Node.canada (CanadaFlightReservation.mk2 { adults := 3 } { price := 200 }),
      Node.itin []] 1 = some (.itin []) ∧
    readChildren (readF 1 [Node.canada (CanadaFlightReservation.mk2 { adults := 3 } { price := 200 }),
      Node.itin []]) [] = some [] ∧
    readF 1 [Node.canada (CanadaFlightReservation.mk2 { adults := 3 } { price := 200 }),
      Node.itin []] 0 =
      some (.canada (CanadaFlightReservation.mk2 { adults := 3 } { price := 200 })) ∧
    (∃ s2 a1, cloneF 1 [Node.canada (CanadaFlightReservation.mk2 { adults := 3 } { price := 200 }),
        Node.itin []] 0 = some (s2, a1) ∧
      addReservationS 1 [Node.canada (CanadaFlightReservation.mk2 { adults := 3 } { price := 200 }),
        Node.itin []] 1 0 = some (List.set s2 1 (.itin ([] ++ [a1]))) ∧
      List.length [Node.canada (CanadaFlightReservation.mk2 { adults := 3 } { price := 200 }),
        Node.itin []] ≤ a1 ∧ 0 ≠ a1 ∧
      readF (1 + 1) (List.set s2 1 (.itin ([] ++ [a1]))) 1 =
        some (.itinerary ([] ++
          [.canada (CanadaFlightReservation.mk2 { adults := 3 } { price := 200 })])) ∧
      (∀ b node, b < List.length [Node.canada (CanadaFlightReservation.mk2 { adults := 3 } { price := 200 }),
          Node.itin []] →
        b ∉ reachF (1 + 1) [Node.canada (CanadaFlightReservation.mk2 { adults := 3 } { price := 200 }),
          Node.itin []] 1 →
        readF (1 + 1) (List.set (List.set s2 1 (.itin ([] ++ [a1]))) b node) 1 =
          some (.itinerary ([] ++
            [.canada (CanadaFlightReservation.mk2 { adults := 3 } { price := 200 })])) ∧
        getCostAt (1 + 1) (List.set (List.set s2 1 (.itin ([] ++ [a1]))) b node) 1 =
          getCostAt (1 + 1) (List.set s2 1 (.itin ([] ++ [a1]))) 1 ∧
        getDetailsAt (1 + 1) (List.set (List.set s2 1 (.itin ([] ++ [a1]))) b node) 1 =
          getDetailsAt (1 + 1) (List.set s2 1 (.itin ([] ++ [a1]))) 1)) :=
  ⟨by decide, rfl, rfl, rfl,
    claim_C6_addReservation_appends_exclusive_clone 1 _ 1 0 [] []
      (.canada (CanadaFlightReservation.mk2 { adults := 3 } { price := 200 }))
      (by decide) rfl rfl rfl⟩
